import Mathlib

/-!
Shallow embedding of the elementium evaluation core (src/core of the
repository): `Registry` (registry.py), element descriptors and references
(element.py, const.py), the `Formula` combinator language (formula.py),
`Variable` evaluation with its re-entrancy lock (variable.py), and
`Character` construction and queries (character.py).

Python dictionaries are modelled as association lists preserving insertion
order (new keys appended at the end, updates in place), Python numbers as
rationals (booleans kept as a separate constructor, coerced to 0/1 by
arithmetic as in Python), and exceptions as an explicit error value threaded
together with the mutable character state, so that the state left behind by
a raising call remains observable.
-/

namespace Elementium

/-- Python runtime values that the formula language produces: numbers
(ints and the results of division, modelled as rationals) and booleans. -/
inductive Value : Type where
  | num : Rat → Value
  | bool : Bool → Value
deriving DecidableEq, Repr

/-- The five binary arithmetic operators that formula.py overloads
(`add`, `sub`, `mul`, `truediv`, `floordiv` from the operator module). -/
inductive Op : Type where
  | add | sub | mul | truediv | floordiv
deriving DecidableEq, Repr

/-- Exceptions of the core, plus `fuel`, an artifact of the fuel-indexed
evaluator (it never occurs when enough fuel is supplied).
`notFound` is the KeyError raised by dict lookups (registry.get and
Character.variables), `duplicateId` the ValueError of Registry.register,
`invalidRegistration` its TypeError for the base class, `circular i` the
CircularDependencyError carrying (the id of) the re-entered variable
instance, `zeroDiv` Python's ZeroDivisionError, `attr` an AttributeError
(variable descriptor without a formula), `assertFail` a failing assert in
Character.__init__. -/
inductive Err : Type where
  | notFound
  | duplicateId
  | invalidRegistration
  | circular : String → Err
  | zeroDiv
  | attr
  | assertFail
  | fuel
deriving DecidableEq, Repr

mutual

/-- The formula combinator language of formula.py: the closures built by
`Formula.const`, `Formula.var`, `Formula.count`, `Formula.has`,
`Formula.if_` and `Formula._operator` / `Formula._roperator` (the latter
two both produce an application of a binary operator to two evaluated
operands, left operand first, captured by `binop`). -/
inductive Fml : Type where
  | const : Value → Fml
  | var : String → Fml
  | count : ERef → Fml
  | has : ERef → Fml
  | ifte : Fml → Fml → Fml → Fml
  | binop : Op → Fml → Fml → Fml

/-- An `ElementRef` from const.py: either a descriptor literal
(`Type[Element]`) or an explicit `(type, id)` pair resolved through the
registry. -/
inductive ERef : Type where
  | descr : Descr → ERef
  | pair : Nat → String → ERef

/-- An element-class descriptor (a concrete `Element` subclass from
element.py): its `type`, `id` and `name` class attributes, whether it is
the abstract base class `Element` itself (`isBase`, which
Registry.register refuses), and — for `Variable` subclasses from
variable.py — the bound `formula` class attribute. -/
inductive Descr : Type where
  | mk : Nat → String → String → Bool → Option Fml → Descr

end

def Descr.type : Descr → Nat
  | .mk t _ _ _ _ => t

def Descr.id : Descr → String
  | .mk _ i _ _ _ => i

def Descr.name : Descr → String
  | .mk _ _ n _ _ => n

def Descr.isBase : Descr → Bool
  | .mk _ _ _ b _ => b

def Descr.formula : Descr → Option Fml
  | .mk _ _ _ _ f => f

/-- Update key `k` to value `v` in an association list, in place if the key
is present, appended at the end otherwise — the behaviour of assignment to
a Python dict key. -/
def alSet {β : Type} (k : Nat) (v : β) : List (Nat × β) → List (Nat × β)
  | [] => [(k, v)]
  | (k1, v1) :: rest =>
      if k = k1 then (k, v) :: rest else (k1, v1) :: alSet k v rest

/-- The Registry of registry.py: `self.registry`, a dict from type to a
dict from id to descriptor. -/
structure Registry : Type where
  registry : List (Nat × List (String × Descr))

/-- Registry.__getitem__: `self.registry.get(type, {})` — the id-to-
descriptor mapping of a type, empty for an unknown type, never raising. -/
def Registry.getitem (r : Registry) (t : Nat) : List (String × Descr) :=
  (List.lookup t r.registry).getD []

/-- Registry.register: refuse the abstract base class Element
(TypeError, `invalidRegistration`), refuse an id already present in the
type's group (ValueError, `duplicateId`), and otherwise insert the
descriptor under `(type, id)`. -/
def Registry.register (r : Registry) (d : Descr) : Except Err Registry :=
  if d.isBase then .error .invalidRegistration
  else
    let g := r.getitem d.type
    if (List.lookup d.id g).isSome then .error .duplicateId
    else .ok ⟨alSet d.type (g ++ [(d.id, d)]) r.registry⟩

/-- Registry.get: `self.registry[type][id]` — two dict subscripts, each of
which raises KeyError (`notFound`) when the key is absent. -/
def Registry.get (r : Registry) (t : Nat) (i : String) : Except Err Descr :=
  match List.lookup t r.registry with
  | none => .error .notFound
  | some g =>
      match List.lookup i g with
      | none => .error .notFound
      | some d => .ok d

/-- Types.VARIABLE from element.py. -/
def Types.VARIABLE : Nat := 0

/-- An element instance owned by a Character: its descriptor (class) and,
for Variable instances, the mutable `_lock` in-progress flag (initialised
to False by Variable.__init__; unused but harmless on other elements). -/
structure Inst : Type where
  descr : Descr
  lock : Bool

/-- A Character from character.py: its `_registry` and its `elements` dict
grouping instances by element type, insertion order preserved. -/
structure Character : Type where
  registry : Registry
  elements : List (Nat × List Inst)

/-- Character.get_elements_by_type: `self.elements.get(type, [])`. -/
def Character.getElementsByType (c : Character) (t : Nat) : List Inst :=
  (List.lookup t c.elements).getD []

/-- The reference-resolution step shared by Character.__init__ and
Character.count_elements: a descriptor literal is used as is (no registry
access), a `(type, id)` pair goes through Registry.get. -/
def resolveWith (r : Registry) : ERef → Except Err Descr
  | .descr d => .ok d
  | .pair t i => r.get t i

/-- Character.count_elements: resolve the reference to a descriptor, then
count the instances in that descriptor's type group whose id equals the
descriptor's id (`sum(element.id == x.id for x in ...)`). -/
def Character.countElements (c : Character) (ref : ERef) : Except Err Nat :=
  match resolveWith c.registry ref with
  | .error e => .error e
  | .ok d =>
      .ok ((c.getElementsByType d.type).filter
        (fun x => d.id == x.descr.id)).length

/-- The explicit-list loop of Character.__init__: resolve each reference in
order (propagating a KeyError from the registry) and append a fresh
instance to its type's group (`self.elements.setdefault(cls.type,
[]).append(cls(self))`). -/
def mkGroups (r : Registry) :
    List ERef → List (Nat × List Inst) → Except Err (List (Nat × List Inst))
  | [], gs => .ok gs
  | ref :: rest, gs =>
      match resolveWith r ref with
      | .error e => .error e
      | .ok d =>
          mkGroups r rest
            (alSet d.type ((List.lookup d.type gs).getD [] ++ [⟨d, false⟩]) gs)

/-- The `assert issubclass(cls, Variable) and cls.type == Types.VARIABLE`
in Character.__init__, with "is a Variable subclass" rendered as "carries a
bound formula" (every Variable subclass is forced to have one by
Variable.__init_subclass__). -/
def isVariableDescr (d : Descr) : Bool :=
  d.formula.isSome && d.type == Types.VARIABLE

/-- Character.__init__: build the groups from the explicit reference list,
then overwrite the VARIABLE group (`self.elements[Types.VARIABLE] = []`)
with exactly one fresh instance of every descriptor currently registered
under Types.VARIABLE, in registry order. -/
def mkCharacter (refs : List ERef) (r : Registry) : Except Err Character :=
  match mkGroups r refs [] with
  | .error e => .error e
  | .ok gs =>
      if (r.getitem Types.VARIABLE).all (fun p => isVariableDescr p.2) then
        .ok ⟨r, alSet Types.VARIABLE
          ((r.getitem Types.VARIABLE).map (fun p => ⟨p.2, false⟩)) gs⟩
      else .error .assertFail

/-- Character.variables lookup: `self.variables[id]` builds a dict keyed by
instance id over the VARIABLE group, so a later instance overwrites an
earlier one with the same id — the last matching instance wins. -/
def Character.findVar (c : Character) (i : String) : Option Inst :=
  ((c.getElementsByType Types.VARIABLE).filter
    (fun x => x.descr.id == i)).getLast?

/-- Mutation of `self._lock` on the variable instance with the given id
(ids in the VARIABLE group are unique for registry-built characters, so
updating every matching instance coincides with Python's mutation of the
one instance the variables dict holds). -/
def Character.setLock (c : Character) (i : String) (b : Bool) : Character :=
  ⟨c.registry,
    alSet Types.VARIABLE
      ((c.getElementsByType Types.VARIABLE).map
        (fun x => if x.descr.id == i then ⟨x.descr, b⟩ else x))
      c.elements⟩

/-- Python numeric coercion: booleans are ints with True == 1, False == 0. -/
def toNum : Value → Rat
  | .num q => q
  | .bool b => if b then 1 else 0

/-- Python truthiness of the values the formula language produces. -/
def truthy : Value → Bool
  | .num q => q != 0
  | .bool b => b

/-- Application of one of the five overloaded arithmetic operators to two
evaluated operands, as the operator module does: plain arithmetic with
bool-to-int coercion, division by zero raising ZeroDivisionError, and
floor division taking the floor of the exact quotient. -/
def applyOp : Op → Value → Value → Except Err Value
  | .add, a, b => .ok (.num (toNum a + toNum b))
  | .sub, a, b => .ok (.num (toNum a - toNum b))
  | .mul, a, b => .ok (.num (toNum a * toNum b))
  | .truediv, a, b =>
      if toNum b == 0 then .error .zeroDiv
      else .ok (.num (toNum a / toNum b))
  | .floordiv, a, b =>
      if toNum b == 0 then .error .zeroDiv
      else .ok (.num (((toNum a / toNum b).floor : Int) : Rat))

/-- The evaluator. `evalFml fuel f c` runs formula `f` against character
`c`, returning the outcome (value or exception) together with the
character state left behind — the lock flags persist across a raising
call exactly as Python instance attributes do.

The `var` case is Character.get_variable followed by Variable.__call__
(variable.py lines 74-80): look the instance up in the variables dict
(KeyError when absent), raise CircularDependencyError when its lock is
already set, otherwise set the lock, run the bound formula, and clear the
lock only on the non-raising path — the source has no try/finally, so a
raising formula leaves the lock set, which this embedding reproduces.

Fuel only decreases across the indirection through a variable's stored
formula; it is an artifact making the recursion structural. -/
def evalFml : Nat → Fml → Character → (Except Err Value) × Character
  | 0, _, c => (.error .fuel, c)
  | _ + 1, .const v, c => (.ok v, c)
  | _ + 1, .count ref, c =>
      (match c.countElements ref with
       | .error e => .error e
       | .ok n => .ok (.num (n : Rat)), c)
  | _ + 1, .has ref, c =>
      (match c.countElements ref with
       | .error e => .error e
       | .ok n => .ok (.bool (decide (0 < n))), c)
  | fuel + 1, .ifte p t e, c =>
      match evalFml fuel p c with
      | (.ok v, c1) =>
          if truthy v then evalFml fuel t c1 else evalFml fuel e c1
      | (.error err, c1) => (.error err, c1)
  | fuel + 1, .binop o l r, c =>
      match evalFml fuel l c with
      | (.error err, c1) => (.error err, c1)
      | (.ok vl, c1) =>
          match evalFml fuel r c1 with
          | (.error err, c2) => (.error err, c2)
          | (.ok vr, c2) => (applyOp o vl vr, c2)
  | fuel + 1, .var i, c =>
      match c.findVar i with
      | none => (.error .notFound, c)
      | some inst =>
          if inst.lock then (.error (.circular i), c)
          else
            let c1 := c.setLock i true
            match inst.descr.formula with
            | none => (.error .attr, c1)
            | some fml =>
                match evalFml fuel fml c1 with
                | (.ok v, c2) => (.ok v, c2.setLock i false)
                | (.error err, c2) => (.error err, c2)

/-- Character.get_variable: `self.variables[id]()`. -/
def Character.getVariable (c : Character) (fuel : Nat) (i : String) :
    (Except Err Value) × Character :=
  evalFml fuel (.var i) c

/-- Formula._operator with a callable (Formula) right operand: the closure
`operator(self.function(character), func(character))`, self first. This is
what `Formula.__add__` and friends build when handed another Formula. -/
def Fml.opF (o : Op) (f g : Fml) : Fml := .binop o f g

/-- Formula._operator with a non-callable (bare constant) right operand:
`func` becomes `lambda character: value`, the closure of Formula.const. -/
def Fml.opConst (o : Op) (f : Fml) (v : Value) : Fml := .binop o f (.const v)

/-- Formula._roperator with a callable left operand: the closure
`operator(func(character), self.function(character))`, func first. -/
def Fml.ropF (o : Op) (g f : Fml) : Fml := .binop o g f

/-- Formula._roperator with a bare-constant left operand — what
`Formula.__radd__` and friends build, so `3 - formula` evaluates 3 first
and the formula second. -/
def Fml.ropConst (o : Op) (v : Value) (f : Fml) : Fml := .binop o (.const v) f

/-! Concrete fixtures: small registries and characters used to exercise the
definitions on closed inputs. -/

/-- Variable descriptor A whose formula reads variable B. -/
def dVarA : Descr := .mk Types.VARIABLE "A" "A" false (some (.var "B"))

/-- Variable descriptor B whose formula reads variable A. -/
def dVarB : Descr := .mk Types.VARIABLE "B" "B" false (some (.var "A"))

/-- Registry holding the mutually recursive variables A and B. -/
def rCyc : Registry := ⟨[(Types.VARIABLE, [("A", dVarA), ("B", dVarB)])]⟩

/-- The character built from `rCyc` with an empty explicit list. -/
def cCyc : Character :=
  ⟨rCyc, [(Types.VARIABLE, [⟨dVarA, false⟩, ⟨dVarB, false⟩])]⟩

/-- `cCyc` after a failed evaluation of A: both locks left set. -/
def cCycLocked : Character :=
  ⟨rCyc, [(Types.VARIABLE, [⟨dVarA, true⟩, ⟨dVarB, true⟩])]⟩

/-- Variable descriptor S whose formula reads S itself. -/
def dVarS : Descr := .mk Types.VARIABLE "S" "S" false (some (.var "S"))

/-- Registry holding only the directly self-reading variable S. -/
def rSelf : Registry := ⟨[(Types.VARIABLE, [("S", dVarS)])]⟩

/-- The character built from `rSelf` with an empty explicit list. -/
def cSelf : Character := ⟨rSelf, [(Types.VARIABLE, [⟨dVarS, false⟩])]⟩

/-- Variable descriptor C with a constant formula. -/
def dVarC : Descr := .mk Types.VARIABLE "C" "C" false (some (.const (.num 1)))

/-- Variable descriptor A2 reading the shared dependency C. -/
def dVarA2 : Descr := .mk Types.VARIABLE "A" "A" false (some (.var "C"))

/-- Variable descriptor B2 also reading the shared dependency C. -/
def dVarB2 : Descr := .mk Types.VARIABLE "B" "B" false (some (.var "C"))

/-- Registry where A and B share the dependency C with no edge between
A and B. -/
def rShared : Registry :=
  ⟨[(Types.VARIABLE, [("C", dVarC), ("A", dVarA2), ("B", dVarB2)])]⟩

/-- The character built from `rShared` with an empty explicit list. -/
def cShared : Character :=
  ⟨rShared,
    [(Types.VARIABLE, [⟨dVarC, false⟩, ⟨dVarA2, false⟩, ⟨dVarB2, false⟩])]⟩

/-- Variable descriptor whose formula raises ZeroDivisionError (1 / 0). -/
def dVarZ : Descr :=
  .mk Types.VARIABLE "b" "b" false
    (some (.binop .truediv (.const (.num 1)) (.const (.num 0))))

/-- Registry holding only the raising variable b. -/
def rZ : Registry := ⟨[(Types.VARIABLE, [("b", dVarZ)])]⟩

/-- The character built from `rZ` with an empty explicit list. -/
def cZ : Character := ⟨rZ, [(Types.VARIABLE, [⟨dVarZ, false⟩])]⟩

/-- `cZ` after a failed evaluation of b: the lock left set. -/
def cZLocked : Character := ⟨rZ, [(Types.VARIABLE, [⟨dVarZ, true⟩])]⟩

/-- The fixture characters really are what Character.__init__ produces. -/
theorem fixtures_built_by_ctor :
    mkCharacter [] rCyc = .ok cCyc ∧ mkCharacter [] rSelf = .ok cSelf ∧
    mkCharacter [] rShared = .ok cShared ∧ mkCharacter [] rZ = .ok cZ :=
  ⟨rfl, rfl, rfl, rfl⟩

/-- C1: the claim states that every call to evaluate clears the in-progress
flag on every exit path, including when the bound Formula raises, so a
later, independent evaluation is unaffected. The code (Variable.__call__,
variable.py lines 74-80) has no try/finally: this theorem evaluates the
code at a failing input and shows that after the Formula raises
ZeroDivisionError the flag is still set, so a later, independent
evaluation of the same variable spuriously raises
CircularDependencyError; the CircularDependencyError path of a nested
cyclic evaluation likewise leaves the flags of the whole chain set. The
claim (and the spec's stated cleanup-on-all-paths contract) is violated
by the code. -/
theorem C1_lock_left_set_when_formula_raises :
    evalFml 3 (.var "b") cZ = (.error .zeroDiv, cZLocked) ∧
    cZLocked.findVar "b" = some ⟨dVarZ, true⟩ ∧
    evalFml 3 (.var "b") cZLocked = (.error (.circular "b"), cZLocked) ∧
    evalFml 5 (.var "A") cCyc = (.error (.circular "A"), cCycLocked) :=
  ⟨rfl, rfl, rfl, rfl⟩

/-- C2: evaluation raises CircularDependencyError exactly on re-entry into
an instance whose in-progress flag is set, naming that instance: (a) for
every character, calling a variable whose flag is set fails immediately
with CircularDependencyError naming it and leaves the state untouched (no
further recursion); (b) a directly self-reading variable S fails with
CircularDependencyError naming S; (c) the mutual cycle A reads B reads A
fails with CircularDependencyError naming A, the re-entered variable as
seen by the call stack; (d) variables A and B that merely share the
dependency C (no edge between A and B) both evaluate successfully. -/
theorem C2_circular_dependency_detection :
    (∀ (fuel : Nat) (c : Character) (i : String) (inst : Inst),
      c.findVar i = some inst → inst.lock = true →
      evalFml (fuel + 1) (.var i) c = (.error (.circular i), c)) ∧
    (evalFml 5 (.var "S") cSelf).1 = .error (.circular "S") ∧
    (evalFml 5 (.var "A") cCyc).1 = .error (.circular "A") ∧
    evalFml 5 (.var "A") cShared = (.ok (.num 1), cShared) ∧
    evalFml 5 (.var "B") cShared = (.ok (.num 1), cShared) := by
  refine ⟨?_, rfl, rfl, rfl, rfl⟩
  intro fuel c i inst h hl
  simp [evalFml, h, hl]

/-- Witness for C2: the general re-entry clause applied to the concrete
locked character `cZLocked`. -/
theorem C2_circular_dependency_detection_witness :
    evalFml 5 (.var "b") cZLocked = (.error (.circular "b"), cZLocked) :=
  C2_circular_dependency_detection.1 4 cZLocked "b" ⟨dVarZ, true⟩ rfl rfl

/-- Looking up the key just written by `alSet` yields the written value. -/
theorem lookup_alSet {β : Type} (k : Nat) (v : β) (l : List (Nat × β)) :
    List.lookup k (alSet k v l) = some v := by
  induction l with
  | nil => simp [alSet, List.lookup]
  | cons p rest ih =>
      obtain ⟨k1, v1⟩ := p
      by_cases h : k = k1
      · simp [alSet, h, List.lookup]
      · have hb : (k == k1) = false := by simp [h]
        simp [alSet, h, List.lookup, hb, ih]

/-- A key absent from the first list is looked up in the second. -/
theorem lookup_append_of_none {α β : Type} [BEq α] [LawfulBEq α]
    (k : α) (l1 l2 : List (α × β)) (h : List.lookup k l1 = none) :
    List.lookup k (l1 ++ l2) = List.lookup k l2 := by
  induction l1 with
  | nil => simp
  | cons p rest ih =>
      obtain ⟨k1, v1⟩ := p
      by_cases hk : k = k1
      · subst hk
        simp only [List.lookup, beq_self_eq_true] at h
        exact absurd h (by simp)
      · have hb : (k == k1) = false := by simp [hk]
        simp only [List.lookup, hb, List.cons_append] at h ⊢
        exact ih h

/-- A non-variable descriptor never registered anywhere, usable as a
descriptor-literal reference. -/
def dGhost : Descr := .mk 5 "ghost" "Ghost" false none

/-- C3: for every registry and every explicit construction list, when
construction succeeds, the Character's VARIABLE-type group holds exactly
one freshly built instance per descriptor currently registered under
Types.VARIABLE, in registry order — no more, no fewer — independent of the
explicit list (Character.__init__ overwrites the VARIABLE group after
processing the explicit references and fills it from the registry). -/
theorem C3_variable_group_matches_registry
    (refs : List ERef) (r : Registry) (c : Character)
    (h : mkCharacter refs r = .ok c) :
    List.lookup Types.VARIABLE c.elements =
      some ((r.getitem Types.VARIABLE).map
        (fun p => ⟨p.2, false⟩ : String × Descr → Inst)) := by
  unfold mkCharacter at h
  split at h
  · exact absurd h (by simp)
  · split at h
    · injection h with h
      subst h
      exact lookup_alSet ..
    · exact absurd h (by simp)

/-- Witness for C3: a character whose explicit list names only the
non-variable `dGhost` still gets one instance per variable registered in
`rShared`. -/
theorem C3_variable_group_matches_registry_witness :
    List.lookup Types.VARIABLE
        (Character.mk rShared
          [(5, [⟨dGhost, false⟩]),
           (Types.VARIABLE,
             [⟨dVarC, false⟩, ⟨dVarA2, false⟩, ⟨dVarB2, false⟩])]).elements =
      some ((rShared.getitem Types.VARIABLE).map
        (fun p => ⟨p.2, false⟩ : String × Descr → Inst)) :=
  C3_variable_group_matches_registry [.descr dGhost] rShared _ rfl

/-- The abstract base class Element itself (element.py), which
Registry.register refuses. -/
def dBase : Descr := .mk 90 "element" "Element" true none

/-- C7: Registry.register fails with the duplicate-id error whenever the
registered descriptor's (type, id) is already present — for any registry
state, hence regardless of the order registrations happened in — fails
with the invalid-registration error when the descriptor is the abstract
base element class itself, and otherwise succeeds and inserts the
descriptor under (type, id). -/
theorem C7_register_errors (r : Registry) (d : Descr) :
    (d.isBase = true → r.register d = .error .invalidRegistration) ∧
    (d.isBase = false →
      ∀ d0, List.lookup d.id (r.getitem d.type) = some d0 →
      r.register d = .error .duplicateId) ∧
    (d.isBase = false → List.lookup d.id (r.getitem d.type) = none →
      ∃ r2, r.register d = .ok r2 ∧
        List.lookup d.id (r2.getitem d.type) = some d) := by
  refine ⟨fun hb => ?_, fun hb d0 hdup => ?_, fun hb habs => ?_⟩
  · simp [Registry.register, hb]
  · simp [Registry.register, hb, hdup]
  · refine ⟨⟨alSet d.type (r.getitem d.type ++ [(d.id, d)]) r.registry⟩, ?_, ?_⟩
    · simp [Registry.register, hb, habs]
    · simp only [Registry.getitem] at habs ⊢
      rw [lookup_alSet, Option.getD_some, lookup_append_of_none _ _ _ habs]
      simp [List.lookup]

/-- Witness for C7: registering the already-present variable descriptor
`dVarZ` into `rZ` fails with the duplicate-id error, and registering the
abstract base class fails with the invalid-registration error. -/
theorem C7_register_errors_witness :
    Registry.register rZ dVarZ = .error .duplicateId ∧
    Registry.register rZ dBase = .error .invalidRegistration :=
  ⟨(C7_register_errors rZ dVarZ).2.1 rfl dVarZ rfl,
   (C7_register_errors rZ dBase).1 rfl⟩

/-- C8: Registry.get fails with the not-found error exactly when no
descriptor sits under (type, id) — whether the whole type is unknown or
just the id — and returns the registered descriptor otherwise; iteration
over a type (Registry.__getitem__) is total and yields the empty mapping
for an unknown type. -/
theorem C8_get_notfound_iff_absent (r : Registry) (t : Nat) (i : String) :
    (r.get t i = .error .notFound ↔ List.lookup i (r.getitem t) = none) ∧
    (∀ d, List.lookup i (r.getitem t) = some d → r.get t i = .ok d) ∧
    (List.lookup t r.registry = none → r.getitem t = []) := by
  unfold Registry.get Registry.getitem
  cases hg : List.lookup t r.registry with
  | none => simp
  | some g => cases hi : List.lookup i g <;> simp [hi]

/-- Witness for C8: the id "b" registered in `rZ` is found, and an
unregistered id of the same type reports not-found. -/
theorem C8_get_notfound_iff_absent_witness :
    Registry.get rZ Types.VARIABLE "b" = .ok dVarZ ∧
    Registry.get rZ Types.VARIABLE "nope" = .error .notFound :=
  ⟨(C8_get_notfound_iff_absent rZ Types.VARIABLE "b").2.1 dVarZ rfl,
   (C8_get_notfound_iff_absent rZ Types.VARIABLE "nope").1.mpr rfl⟩

/-! Fixtures for counting: TYPE_X is 1, with "wizard" and "fighter"
registered, "sorcerer" unregistered, and a same-id descriptor "wizard"
registered under the distinct type 2. -/

/-- Registered descriptor (1, "wizard"). -/
def dWizard : Descr := .mk 1 "wizard" "Wizard" false none

/-- Registered descriptor (1, "fighter"). -/
def dFighter : Descr := .mk 1 "fighter" "Fighter" false none

/-- Registered descriptor (2, "wizard"): same id, different type. -/
def dWizard2 : Descr := .mk 2 "wizard" "Wizard Trait" false none

/-- Descriptor (1, "sorcerer"), never registered. -/
def dSorcerer : Descr := .mk 1 "sorcerer" "Sorcerer" false none

/-- Registry with wizard and fighter under type 1 and wizard under type 2. -/
def rW : Registry :=
  ⟨[(1, [("wizard", dWizard), ("fighter", dFighter)]),
    (2, [("wizard", dWizard2)])]⟩

/-- Character holding three (1, "wizard") instances, one (1, "fighter")
instance and one (2, "wizard") instance. -/
def cW : Character :=
  ⟨rW,
    [(1, [⟨dWizard, false⟩, ⟨dWizard, false⟩, ⟨dWizard, false⟩,
          ⟨dFighter, false⟩]),
     (2, [⟨dWizard2, false⟩]),
     (Types.VARIABLE, [])]⟩

/-- `cW` really is what Character.__init__ produces from the explicit
reference list. -/
theorem cW_built_by_ctor :
    mkCharacter
      [.pair 1 "wizard", .pair 1 "wizard", .pair 1 "wizard",
       .pair 1 "fighter", .pair 2 "wizard"] rW = .ok cW := rfl

/-- C4 counterexample: the claim says count_elements returns 0 rather than
failing for any id of the type that is not registered, but a (type, id)
pair reference naming the unregistered id "sorcerer" makes
Character.count_elements raise KeyError from Registry.get (NotFoundError)
instead of returning 0. -/
theorem C4_unregistered_pair_ref_fails :
    cW.countElements (.pair 1 "sorcerer") = .error .notFound ∧
    cW.countElements (.pair 1 "sorcerer") ≠ .ok 0 :=
  ⟨rfl, fun h =>
    nomatch (show Except.error Err.notFound = Except.ok (0 : Nat) from h)⟩

/-- C4 as amended: count_elements performs a type-scoped exact-id match —
the "wizard" reference counts 3 (the same-id instance of type 2 is never
counted), "fighter" counts 1, a descriptor-literal reference with the
unregistered id "sorcerer" returns 0 without failing, and the type-2
"wizard" group counts its single instance; only a (type, id) pair
reference to an unregistered id fails (NotFoundError), as shown by the
counterexample. -/
theorem C4_count_type_scoped_exact_id :
    cW.countElements (.pair 1 "wizard") = .ok 3 ∧
    cW.countElements (.pair 1 "fighter") = .ok 1 ∧
    cW.countElements (.descr dSorcerer) = .ok 0 ∧
    cW.countElements (.pair 2 "wizard") = .ok 1 :=
  ⟨rfl, rfl, rfl, rfl⟩

/-- Variable descriptor "level" with constant formula 7. -/
def dLevel : Descr := .mk Types.VARIABLE "level" "Level" false
  (some (.const (.num 7)))

/-- Registry holding only the variable "level". -/
def rLvl : Registry := ⟨[(Types.VARIABLE, [("level", dLevel)])]⟩

/-- The character built from `rLvl` with an empty explicit list. -/
def cLvl : Character := ⟨rLvl, [(Types.VARIABLE, [⟨dLevel, false⟩])]⟩

/-- C5: the arithmetic operators are defined on formulas in both operand
orders and evaluate the two operands left-then-right before applying the
operator: (a) const 2 + const 3 evaluates to 5 against every character;
(b) var "level" * const 4 evaluates to four times the value of the
"level" variable; (c) Formula._operator with a Formula operand evaluates
self first, the operand second, then applies the operator, propagating
either operand's exception; (d) Formula._operator with a bare constant
behaves the same with the constant as right operand; (e)
Formula._roperator (the reflected `__radd__` family, used when the
formula is the right operand) evaluates the bare-constant left operand
first and the formula second. -/
theorem C5_arithmetic_both_orders :
    (∀ (fuel : Nat) (c : Character),
      evalFml (fuel + 2) (Fml.opF .add (.const (.num 2)) (.const (.num 3))) c
        = (.ok (.num 5), c)) ∧
    (∀ (fuel : Nat) (c c1 : Character) (q : Rat),
      evalFml (fuel + 1) (.var "level") c = (.ok (.num q), c1) →
      evalFml (fuel + 2) (Fml.opF .mul (.var "level") (.const (.num 4))) c
        = (.ok (.num (q * 4)), c1)) ∧
    (∀ (o : Op) (f g : Fml) (fuel : Nat) (c : Character),
      evalFml (fuel + 1) (Fml.opF o f g) c =
        match evalFml fuel f c with
        | (.error e, c1) => (.error e, c1)
        | (.ok vl, c1) =>
            match evalFml fuel g c1 with
            | (.error e, c2) => (.error e, c2)
            | (.ok vr, c2) => (applyOp o vl vr, c2)) ∧
    (∀ (o : Op) (v : Value) (f : Fml) (fuel : Nat) (c : Character),
      evalFml (fuel + 2) (Fml.opConst o f v) c =
        match evalFml (fuel + 1) f c with
        | (.error e, c1) => (.error e, c1)
        | (.ok w, c1) => (applyOp o w v, c1)) ∧
    (∀ (o : Op) (v : Value) (f : Fml) (fuel : Nat) (c : Character),
      evalFml (fuel + 2) (Fml.ropConst o v f) c =
        match evalFml (fuel + 1) f c with
        | (.error e, c1) => (.error e, c1)
        | (.ok w, c1) => (applyOp o v w, c1)) := by
  have hop : ∀ (o : Op) (f g : Fml) (fuel : Nat) (c : Character),
      evalFml (fuel + 1) (Fml.opF o f g) c =
        match evalFml fuel f c with
        | (.error e, c1) => (.error e, c1)
        | (.ok vl, c1) =>
            match evalFml fuel g c1 with
            | (.error e, c2) => (.error e, c2)
            | (.ok vr, c2) => (applyOp o vl vr, c2) := by
    intro o f g fuel c
    rcases hf : evalFml fuel f c with ⟨res, c1⟩
    cases res with
    | error e => simp [evalFml, Fml.opF, hf]
    | ok vl =>
        rcases hg : evalFml fuel g c1 with ⟨res2, c2⟩
        cases res2 <;> simp [evalFml, Fml.opF, hf, hg]
  refine ⟨?_, ?_, hop, ?_, ?_⟩
  · intro fuel c
    norm_num [evalFml, Fml.opF, applyOp, toNum]
  · intro fuel c c1 q h
    rw [show fuel + 2 = (fuel + 1) + 1 from rfl,
      hop .mul (.var "level") (.const (.num 4)) (fuel + 1) c, h]
    simp [evalFml, applyOp, toNum]
  · intro o v f fuel c
    rcases hf : evalFml (fuel + 1) f c with ⟨res, c1⟩
    cases res <;> simp [evalFml, Fml.opConst, hf]
  · intro o v f fuel c
    rcases hf : evalFml (fuel + 1) f c with ⟨res, c1⟩
    cases res <;> simp [evalFml, Fml.ropConst, hf]

/-- Witness for C5: clause (b) applied to the concrete character `cLvl`
whose "level" variable evaluates to 7. -/
theorem C5_arithmetic_both_orders_witness :
    evalFml 3 (Fml.opF .mul (.var "level") (.const (.num 4))) cLvl
      = (.ok (.num (7 * 4)), cLvl) :=
  C5_arithmetic_both_orders.2.1 1 cLvl cLvl 7 rfl

/-- C6: evaluating has(ref) against a character yields true exactly when
evaluating count(ref) against the same character yields a value strictly
greater than 0 (both delegate to Character.count_elements; on a resolution
failure both propagate the same exception and has yields no value). -/
theorem C6_has_iff_count_pos (fuel : Nat) (ref : ERef) (c : Character) :
    (evalFml (fuel + 1) (.has ref) c).1 = .ok (.bool true) ↔
      ∃ n : Nat, (evalFml (fuel + 1) (.count ref) c).1 = .ok (.num (n : Rat)) ∧
        0 < n := by
  cases h : c.countElements ref with
  | error e => simp [evalFml, h]
  | ok n => simp [evalFml, h, Nat.cast_inj]

/-- C9: conditional evaluation is short-circuiting — once the predicate has
evaluated to v, the conditional's outcome is the evaluation of exactly the
branch selected by v's truthiness, starting from the state the predicate
left behind, and it is independent of the unselected branch formula. -/
theorem C9_conditional_short_circuit
    (fuel : Nat) (p t f : Fml) (c c1 : Character) (v : Value)
    (h : evalFml (fuel + 1) p c = (.ok v, c1)) :
    (evalFml (fuel + 2) (.ifte p t f) c =
      if truthy v then evalFml (fuel + 1) t c1
      else evalFml (fuel + 1) f c1) ∧
    (truthy v = true → ∀ f2, evalFml (fuel + 2) (.ifte p t f2) c =
      evalFml (fuel + 1) t c1) ∧
    (truthy v = false → ∀ t2, evalFml (fuel + 2) (.ifte p t2 f) c =
      evalFml (fuel + 1) f c1) := by
  refine ⟨?_, fun ht f2 => ?_, fun ht t2 => ?_⟩
  · simp [evalFml, h]
  · simp [evalFml, h, ht]
  · simp [evalFml, h, ht]

/-- Witness for C9: a truthy constant predicate selects the first branch,
whatever the second branch formula is. -/
theorem C9_conditional_short_circuit_witness :
    evalFml 2 (.ifte (.const (.num 1)) (.const (.num 10)) (.var "b")) cZ
      = evalFml 1 (.const (.num 10)) cZ :=
  (C9_conditional_short_circuit 0 (.const (.num 1)) (.const (.num 10))
    (.const (.num 0)) cZ cZ (.num 1) rfl).2.1 rfl (.var "b")

/-- The character built from an empty registry and the single
descriptor-literal reference `dGhost` (never registered). -/
def cGhost : Character :=
  ⟨⟨[]⟩, [(5, [⟨dGhost, false⟩]), (Types.VARIABLE, [])]⟩

/-- C10: a descriptor-literal reference bypasses the Registry entirely —
count_elements on a literal always succeeds with the exact-id count inside
the literal's type group, its result does not depend on the registry at
all, construction from an empty registry instantiates the never-registered
`dGhost` and counts it as 1, and it is only the (type, id) pair form of
the same reference that goes through the Registry and fails with
NotFoundError. -/
theorem C10_descriptor_literal_bypasses_registry :
    (∀ (c : Character) (d : Descr),
      c.countElements (.descr d) =
        .ok ((c.getElementsByType d.type).filter
          (fun x => d.id == x.descr.id)).length) ∧
    (∀ (c : Character) (r2 : Registry) (d : Descr),
      Character.countElements ⟨r2, c.elements⟩ (.descr d) =
        c.countElements (.descr d)) ∧
    mkCharacter [.descr dGhost] (⟨[]⟩ : Registry) = .ok cGhost ∧
    cGhost.countElements (.descr dGhost) = .ok 1 ∧
    cGhost.countElements (.pair 5 "ghost") = .error .notFound :=
  ⟨fun _ _ => rfl, fun _ _ _ => rfl, rfl, rfl, rfl⟩

end Elementium
